import Mathlib

/-!
Verification of the device-side AMQP messaging core
(`iothubtransport_amqp_messenger.c` and `iothubtransport_amqp_twin_messenger.c`)
against its natural-language specification.

The C sources are shallowly embedded: enums become inductive types, the
relevant slices of the stateful functions become pure functions over explicit
state records, and callback invocations become event lists.  External
collaborators that are code of this repository but are not part of the two
translated files (the message queue, the retry-control timeout helper) are
modelled from the specification and marked as such in their doc comments.
-/

/-! ## Library enums (uAMQP message sender / receiver states) -/

/-- State enum of the uAMQP message sender, as consumed by the messenger. -/
inductive MESSAGE_SENDER_STATE
  | IDLE
  | OPENING
  | OPEN
  | CLOSING
  | ERROR
  deriving DecidableEq, Repr, Fintype

/-- State enum of the uAMQP message receiver, as consumed by the messenger. -/
inductive MESSAGE_RECEIVER_STATE
  | IDLE
  | OPENING
  | OPEN
  | CLOSING
  | ERROR
  deriving DecidableEq, Repr, Fintype

/-! ## AMQP messenger enums (from iothubtransport_amqp_messenger.c usage) -/

/-- Messenger lifecycle state (AMQP_MESSENGER_STATE). -/
inductive AMQP_MESSENGER_STATE
  | STARTING
  | STARTED
  | STOPPING
  | STOPPED
  | ERROR
  deriving DecidableEq, Repr, Fintype

/-- Send-completion result as used by the .c files (result/reason split). -/
inductive AMQP_MESSENGER_SEND_RESULT
  | SUCCESS
  | CANCELLED
  | ERROR
  deriving DecidableEq, Repr, Fintype

/-- Send-completion reason as used by the .c files. -/
inductive AMQP_MESSENGER_REASON
  | NONE
  | CANNOT_PARSE
  | FAIL_SENDING
  | TIMEOUT
  | MESSENGER_DESTROYED
  deriving DecidableEq, Repr, Fintype

/-- Disposition result returned by the application layer. -/
inductive AMQP_MESSENGER_DISPOSITION_RESULT
  | NONE
  | ACCEPTED
  | REJECTED
  | RELEASED
  deriving DecidableEq, Repr, Fintype

/-- Modelled from the spec: the message-queue completion result enum
(`message_queue.h` is code of this repository that is not under src/).
The spec names the outcomes SUCCESS, ERROR, TIMEOUT and CANCELLED
(sections 4.1.5 and 4.1.9). -/
inductive MESSAGE_QUEUE_RESULT
  | SUCCESS
  | ERROR
  | TIMEOUT
  | CANCELLED
  deriving DecidableEq, Repr, Fintype

/-! ## Twin messenger enums (from iothubtransport_amqp_twin_messenger.c) -/

/-- Twin messenger lifecycle state (mirror of the AMQP messenger state). -/
inductive TWIN_MESSENGER_STATE
  | STARTING
  | STARTED
  | STOPPING
  | STOPPED
  | ERROR
  deriving DecidableEq, Repr, Fintype

/-- Twin operation type (local enum TWIN_OPERATION_TYPE). -/
inductive TWIN_OPERATION_TYPE
  | PATCH
  | GET
  | PUT
  | DELETE
  deriving DecidableEq, Repr, Fintype

/-- Twin subscription state (local enum TWIN_SUBSCRIPTION_STATE). -/
inductive TWIN_SUBSCRIPTION_STATE
  | NOT_SUBSCRIBED
  | GET_COMPLETE_PROPERTIES
  | GETTING_COMPLETE_PROPERTIES
  | SUBSCRIBE_FOR_UPDATES
  | SUBSCRIBING
  | SUBSCRIBED
  | UNSUBSCRIBE
  | UNSUBSCRIBING
  deriving DecidableEq, Repr, Fintype

/-- Result enum for the report-state completion callback. -/
inductive TWIN_REPORT_STATE_RESULT
  | SUCCESS
  | CANCELLED
  | ERROR
  deriving DecidableEq, Repr, Fintype

/-- Reason enum for the report-state completion callback. -/
inductive TWIN_REPORT_STATE_REASON
  | NONE
  | FAIL_SENDING
  | TIMEOUT
  | MESSENGER_DESTROYED
  | INVALID_RESPONSE
  deriving DecidableEq, Repr, Fintype

/-- Twin update type delivered to the delta callback. -/
inductive TWIN_UPDATE_TYPE
  | COMPLETE
  | PARTIAL_UPDATE
  deriving DecidableEq, Repr, Fintype

/-- Send status reported by the get_send_status APIs. -/
inductive TWIN_MESSENGER_SEND_STATUS
  | IDLE
  | BUSY
  deriving DecidableEq, Repr, Fintype

/-- Stand-in for the C macro __FAILURE__ (a nonzero int). -/
def failure_value : Int := 1

/-! ## C1: twin response handling (on_amqp_message_received, lines 1109-1226) -/

/-- Subscription-related slice of TWIN_MESSENGER_INSTANCE. -/
structure TwinSubscriptionData where
  subscription_state : TWIN_SUBSCRIPTION_STATE
  subscription_error_count : Nat
  deriving DecidableEq, Repr

/-- Callback invocation observed at the twin messenger API boundary. -/
inductive TwinEvent
  | reportStateComplete (result : TWIN_REPORT_STATE_RESULT)
      (reason : TWIN_REPORT_STATE_REASON) (status_code : Int)
  | twinUpdate (update_type : TWIN_UPDATE_TYPE) (payload : Option String)
  deriving DecidableEq, Repr

/-- The per-operation branch of on_amqp_message_received
(iothubtransport_amqp_twin_messenger.c, lines 1109-1226), translated
literally from the source once a matching TWIN_OPERATION_CONTEXT of type
`type` has been found for the incoming message's correlation id.  Inputs are
the parse results of the message (status code and report body with their
presence flags), whether the delta callback is installed, and the current
subscription slice of the messenger.  Output: the updated subscription
slice, the callback invocations made, and the disposition result.  The
nested state tests of the PUT and DELETE branches are kept exactly as in
the source (outer test against SUBSCRIBED resp. NOT_SUBSCRIBED, inner test
against SUBSCRIBING resp. UNSUBSCRIBING). -/
def handle_twin_response (type : TWIN_OPERATION_TYPE)
    (has_status_code : Bool) (status_code : Int)
    (has_twin_report : Bool) (twin_report : String)
    (has_delta_callback : Bool) (st : TwinSubscriptionData) :
    TwinSubscriptionData × List TwinEvent × AMQP_MESSENGER_DISPOSITION_RESULT :=
  match type with
  | .PATCH =>
    if ¬ has_status_code then
      (st, [.reportStateComplete .ERROR .INVALID_RESPONSE 0], .REJECTED)
    else
      (st, [.reportStateComplete .SUCCESS .NONE status_code], .ACCEPTED)
  | .GET =>
    if ¬ has_twin_report then
      let evs : List TwinEvent :=
        if has_delta_callback then [.twinUpdate .COMPLETE none] else []
      let st' :=
        if st.subscription_state = .GETTING_COMPLETE_PROPERTIES then
          { subscription_state := .GET_COMPLETE_PROPERTIES,
            subscription_error_count := st.subscription_error_count + 1 }
        else st
      (st', evs, .REJECTED)
    else
      let evs : List TwinEvent :=
        if has_delta_callback then [.twinUpdate .COMPLETE (some twin_report)] else []
      let st' :=
        if st.subscription_state = .GETTING_COMPLETE_PROPERTIES then
          { subscription_state := .SUBSCRIBE_FOR_UPDATES,
            subscription_error_count := 0 }
        else st
      (st', evs, .ACCEPTED)
  | .PUT =>
    if st.subscription_state = .SUBSCRIBED then
      let subscription_succeeded :=
        has_status_code ∧ 200 ≤ status_code ∧ status_code < 300
      let st' :=
        if st.subscription_state = .SUBSCRIBING then
          if subscription_succeeded then
            ({ subscription_state := .SUBSCRIBED, subscription_error_count := 0 }
              : TwinSubscriptionData)
          else
            { subscription_state := .SUBSCRIBE_FOR_UPDATES,
              subscription_error_count := st.subscription_error_count + 1 }
        else st
      (st', [], .ACCEPTED)
    else (st, [], .ACCEPTED)
  | .DELETE =>
    if st.subscription_state = .NOT_SUBSCRIBED then
      let unsubscription_succeeded :=
        has_status_code ∧ 200 ≤ status_code ∧ status_code < 300
      let st' :=
        if st.subscription_state = .UNSUBSCRIBING then
          if unsubscription_succeeded then
            ({ subscription_state := .NOT_SUBSCRIBED, subscription_error_count := 0 }
              : TwinSubscriptionData)
          else
            { subscription_state := .UNSUBSCRIBE,
              subscription_error_count := st.subscription_error_count + 1 }
        else st
      (st', [], .ACCEPTED)
    else (st, [], .ACCEPTED)

/-! ## C2: cancellation on destroy (twin messenger, lines 831-890 and 993-1052) -/

/-- Operation record TWIN_OPERATION_CONTEXT (type, correlation id, and whether
a report-state completion callback was installed; the back-pointer to the
messenger is implicit in the state threading). -/
structure TWIN_OPERATION_CONTEXT where
  type : TWIN_OPERATION_TYPE
  correlation_id : String
  has_report_callback : Bool
  deriving DecidableEq, Repr

/-- One invocation of a report-state completion callback, tagged with the
correlation id of the operation it belongs to. -/
structure TwinCallbackInvocation where
  correlation_id : String
  result : TWIN_REPORT_STATE_RESULT
  reason : TWIN_REPORT_STATE_REASON
  status_code : Int
  deriving DecidableEq, Repr

/-- Slice of TWIN_MESSENGER_INSTANCE relevant to operation bookkeeping. -/
structure TwinMsgrOps where
  operations : List TWIN_OPERATION_CONTEXT
  subscription_state : TWIN_SUBSCRIPTION_STATE
  subscription_error_count : Nat
  deriving DecidableEq, Repr

/-- get_twin_messenger_result_from (lines 777-799). -/
def get_twin_messenger_result_from :
    AMQP_MESSENGER_SEND_RESULT → TWIN_REPORT_STATE_RESULT
  | .SUCCESS => .SUCCESS
  | .CANCELLED => .CANCELLED
  | .ERROR => .ERROR

/-- get_twin_messenger_reason_from (lines 801-829). -/
def get_twin_messenger_reason_from :
    AMQP_MESSENGER_REASON → TWIN_REPORT_STATE_REASON
  | .NONE => .NONE
  | .FAIL_SENDING => .FAIL_SENDING
  | .TIMEOUT => .TIMEOUT
  | .MESSENGER_DESTROYED => .MESSENGER_DESTROYED
  | .CANNOT_PARSE => .NONE

/-- remove_twin_operation_context_from_queue (lines 415-436): removes the
first list entry whose correlation id matches; succeeds (leaving the list
unchanged) when no entry matches. -/
def remove_twin_operation_context_from_queue
    (ops : List TWIN_OPERATION_CONTEXT) (correlation_id : String) :
    List TWIN_OPERATION_CONTEXT :=
  ops.eraseP (fun c => c.correlation_id == correlation_id)

/-- on_amqp_send_complete_callback (lines 831-890), the AMQP send-completion
bridge of the twin messenger.  Given the AMQP-level result and reason and the
operation context bound into the send, it returns the updated messenger
slice, the report-state callback invocations made, and the correlation ids of
the contexts destroyed.  Note: for a failed PATCH the source computes
callback_result and callback_reason via the conversion helpers but then
invokes the callback with the hardcoded pair
(TWIN_REPORT_STATE_RESULT_ERROR, TWIN_REPORT_STATE_REASON_NONE, 0)
(line 855); the translation reproduces that call exactly. -/
def on_amqp_send_complete_callback (result : AMQP_MESSENGER_SEND_RESULT)
    (reason : AMQP_MESSENGER_REASON) (ctx : TWIN_OPERATION_CONTEXT)
    (st : TwinMsgrOps) :
    TwinMsgrOps × List TwinCallbackInvocation × List String :=
  if result = .SUCCESS then (st, [], [])
  else
    let stEvs : TwinMsgrOps × List TwinCallbackInvocation :=
      if ctx.type = .PATCH then
        (st,
          if ctx.has_report_callback then
            [⟨ctx.correlation_id, .ERROR, .NONE, 0⟩]
          else [])
      else if reason ≠ .MESSENGER_DESTROYED then
        if ctx.type = .GET ∧
            st.subscription_state = .GETTING_COMPLETE_PROPERTIES then
          ({ st with subscription_state := .GET_COMPLETE_PROPERTIES,
                     subscription_error_count := st.subscription_error_count + 1 },
           [])
        else if ctx.type = .PUT ∧
            st.subscription_state = .GETTING_COMPLETE_PROPERTIES then
          ({ st with subscription_state := .GET_COMPLETE_PROPERTIES,
                     subscription_error_count := st.subscription_error_count + 1 },
           [])
        else (st, [])
      else (st, [])
    let st1 := stEvs.1
    ({ st1 with operations :=
        remove_twin_operation_context_from_queue st1.operations ctx.correlation_id },
     stEvs.2, [ctx.correlation_id])

/-- cancel_all_pending_twin_operations (lines 993-1026): walks the operations
list head to tail, removing every context; PATCH contexts fire their
completion callback with (CANCELLED, MESSENGER_DESTROYED, 0); every context
is destroyed.  Returns the callback invocations and the correlation ids of
the destroyed contexts, in list order. -/
def cancel_all_pending_twin_operations :
    List TWIN_OPERATION_CONTEXT → List TwinCallbackInvocation × List String
  | [] => ([], [])
  | c :: rest =>
    let tail := cancel_all_pending_twin_operations rest
    ((if c.type = .PATCH then
        [⟨c.correlation_id, .CANCELLED, .MESSENGER_DESTROYED, 0⟩]
      else []) ++ tail.1,
     c.correlation_id :: tail.2)

/-- internal_twin_messenger_destroy (lines 1028-1052) restricted to its
observable callback behaviour.  The source first destroys the owned AMQP
messenger and only then cancels the remaining operations.  Modelled from the
spec for the part not under src/: destroying the AMQP messenger destroys its
send queue, which fail-callbacks every still-enqueued task with a
cancellation outcome (section 4.1.1 destroy); since amqp_messenger_destroy
stops the messenger first, on_message_processing_completed_callback maps that
to (CANCELLED, MESSENGER_DESTROYED) and invokes the twin bridge
on_amqp_send_complete_callback for each such task.  `in_flight` lists the
operation contexts whose AMQP send task is still held by the send queue, in
queue order. -/
def internal_twin_messenger_destroy (st : TwinMsgrOps)
    (in_flight : List TWIN_OPERATION_CONTEXT) :
    List TwinCallbackInvocation × List String :=
  let step := fun (acc : TwinMsgrOps × List TwinCallbackInvocation × List String)
      (ctx : TWIN_OPERATION_CONTEXT) =>
    let r := on_amqp_send_complete_callback .CANCELLED .MESSENGER_DESTROYED ctx acc.1
    (r.1, acc.2.1 ++ r.2.1, acc.2.2 ++ r.2.2)
  let afterAmqp := in_flight.foldl step (st, [], [])
  let cancelled := cancel_all_pending_twin_operations afterAmqp.1.operations
  (afterAmqp.2.1 ++ cancelled.1, afterAmqp.2.2 ++ cancelled.2)

/-! ## C3: twin_messenger_get_send_status (lines 1520-1561) -/

/-- The while-loop of twin_messenger_get_send_status, translated with the
iterator position made explicit.  The C body (lines 1538-1552) reads the
value of `list_item`, breaks with failure when the value is NULL, counts
PATCH operations, and never advances `list_item`.  In this model every list
entry is a valid context, so the NULL-value break is unreachable; `fuel`
bounds the number of iterations, and `none` means the loop has not
terminated within that bound. -/
def twin_messenger_get_send_status_loop (fuel : Nat)
    (ops : List TWIN_OPERATION_CONTEXT) (list_item : Nat)
    (pending_patch_count : Nat) : Option (Int × Nat) :=
  match fuel with
  | 0 => none
  | fuel + 1 =>
    match ops.get? list_item with
    | none => some (0, pending_patch_count)
    | some ctx =>
      twin_messenger_get_send_status_loop fuel ops list_item
        (if ctx.type = .PATCH then pending_patch_count + 1 else pending_patch_count)

/-- twin_messenger_get_send_status (lines 1520-1561) for a non-null handle
and a non-null output pointer: runs the counting loop from the list head and
maps the count to BUSY/IDLE.  `none` propagates loop non-termination. -/
def twin_messenger_get_send_status (fuel : Nat)
    (ops : List TWIN_OPERATION_CONTEXT) :
    Option (Int × TWIN_MESSENGER_SEND_STATUS) :=
  match twin_messenger_get_send_status_loop fuel ops 0 0 with
  | none => none
  | some (result, pending_patch_count) =>
    some (result, if pending_patch_count > 0 then .BUSY else .IDLE)

/-! ## C4: send completion mapping (on_message_processing_completed_callback,
iothubtransport_amqp_messenger.c, lines 1029-1080) -/

/-- One invocation of the user send-completion callback of the AMQP
messenger. -/
structure AmqpSendCompletion where
  result : AMQP_MESSENGER_SEND_RESULT
  reason : AMQP_MESSENGER_REASON
  deriving DecidableEq, Repr

/-- Modelled from the spec: the message queue (code of this repository not
under src/) completes a task with MESSAGE_QUEUE_TIMEOUT when its enqueue age
reaches max_message_enqueued_time_secs (sections 4.1.5 and 5,
"expired tasks complete with ERROR/TIMEOUT"). -/
def message_queue_check_timeout (enqueue_time now max_message_enqueued_time_secs : Nat) :
    Option MESSAGE_QUEUE_RESULT :=
  if max_message_enqueued_time_secs ≤ now - enqueue_time then some .TIMEOUT
  else none

/-- on_message_processing_completed_callback (lines 1029-1080) for a non-null
context: maps the queue-level result to the messenger-level result/reason
pair, increments the consecutive send-error counter only in the fallthrough
(FAIL_SENDING) branch, and invokes the user callback when one is installed.
Returns the new send_error_count and the callback invocations made. -/
def on_message_processing_completed_callback (mq_result : MESSAGE_QUEUE_RESULT)
    (messenger_state : AMQP_MESSENGER_STATE) (send_error_count : Nat)
    (has_callback : Bool) : Nat × List AmqpSendCompletion :=
  let mapped : Nat × AMQP_MESSENGER_SEND_RESULT × AMQP_MESSENGER_REASON :=
    if mq_result = .SUCCESS then (send_error_count, .SUCCESS, .NONE)
    else if mq_result = .TIMEOUT then (send_error_count, .ERROR, .TIMEOUT)
    else if mq_result = .CANCELLED ∧ messenger_state = .STOPPED then
      (send_error_count, .CANCELLED, .MESSENGER_DESTROYED)
    else (send_error_count + 1, .ERROR, .FAIL_SENDING)
  (mapped.1, if has_callback then [⟨mapped.2.1, mapped.2.2⟩] else [])

/-! ## C5: link creation (create_link, iothubtransport_amqp_messenger.c,
lines 461-552, and the constants at lines 33-35) -/

/-- MESSAGE_SENDER_MAX_LINK_SIZE = UINT64_MAX (line 33). -/
def MESSAGE_SENDER_MAX_LINK_SIZE : Nat := 2 ^ 64 - 1

/-- MESSAGE_RECEIVER_MAX_LINK_SIZE = 65536 (line 35). -/
def MESSAGE_RECEIVER_MAX_LINK_SIZE : Nat := 65536

/-- Link role (uAMQP role: role_sender / role_receiver). -/
inductive Role
  | sender
  | receiver
  deriving DecidableEq, Repr, Fintype

/-- Observable attributes of a link produced by create_link. -/
structure LinkSpec where
  name : String
  source_address : String
  target_address : String
  max_message_size : Nat
  deriving DecidableEq, Repr

/-- create_link_address (lines 266-282):
"amqps://fqdn/devices/device_id/suffix". -/
def create_link_address (iothub_host_fqdn device_id suffix : String) : String :=
  "amqps://" ++ iothub_host_fqdn ++ "/devices/" ++ device_id ++ "/" ++ suffix

/-- create_link (lines 461-552), with the freshly generated unique token
passed in as `unique_id`.  The link name is the role tag joined with the
device id and the unique token; sender links use a named source and the
address as target, receiver links the address as source and a named target.
The maximum link message size is set at line 536 with
MESSAGE_SENDER_MAX_LINK_SIZE for both roles (the receiver constant is never
used by the source). -/
def create_link (link_role : Role) (iothub_host_fqdn device_id suffix unique_id : String) :
    LinkSpec :=
  let address := create_link_address iothub_host_fqdn device_id suffix
  let link_name :=
    (if link_role = .sender then "link-snd" else "link-rcv")
      ++ "-" ++ device_id ++ "-" ++ unique_id
  { name := link_name
    source_address := if link_role = .sender then link_name ++ "-source" else address
    target_address := if link_role = .sender then address else link_name ++ "-target"
    max_message_size := MESSAGE_SENDER_MAX_LINK_SIZE }

/-! ## C6: state reconciliation (process_state_changes,
iothubtransport_amqp_messenger.c, lines 1260-1330) -/

/-- MAX_MESSAGE_SENDER_STATE_CHANGE_TIMEOUT_SECS (line 39). -/
def MAX_MESSAGE_SENDER_STATE_CHANGE_TIMEOUT_SECS : Nat := 300

/-- MAX_MESSAGE_RECEIVER_STATE_CHANGE_TIMEOUT_SECS (line 40). -/
def MAX_MESSAGE_RECEIVER_STATE_CHANGE_TIMEOUT_SECS : Nat := 300

/-- Modelled from the spec: is_timeout_reached (iothub_client_retry_control,
code of this repository not under src/) reports whether more than
timeout_in_secs have elapsed since start_time (section 4.1.3, "more than
MAX_..._TIMEOUT_SECS (300) elapsed").  Time is a valid Nat timestamp; the
get_time failure path of the collaborator is out of scope (section 1). -/
def is_timeout_reached (start_time timeout_in_secs now : Nat) : Bool :=
  timeout_in_secs < now - start_time

/-- Slice of AMQP_MESSENGER_INSTANCE read by process_state_changes.
`message_sender_present` and `message_receiver_present` model the NULL tests
on the message_sender / message_receiver handles. -/
structure AmqpReconcileState where
  state : AMQP_MESSENGER_STATE
  message_sender_current_state : MESSAGE_SENDER_STATE
  message_sender_present : Bool
  last_message_sender_state_change_time : Nat
  message_receiver_current_state : MESSAGE_RECEIVER_STATE
  message_receiver_present : Bool
  last_message_receiver_state_change_time : Nat
  deriving DecidableEq, Repr

/-- process_state_changes (lines 1260-1330): pure function from the instance
slice and the current time to the messenger state that
update_messenger_state is asked to install (update_messenger_state leaves
the state unchanged when the requested state equals the current one). -/
def process_state_changes (inst : AmqpReconcileState) (now : Nat) :
    AMQP_MESSENGER_STATE :=
  if inst.state = .STARTED then
    if inst.message_sender_current_state ≠ .OPEN then .ERROR
    else if inst.message_receiver_present ∧
        inst.message_receiver_current_state ≠ .OPEN then
      if inst.message_receiver_current_state = .OPENING then
        if is_timeout_reached inst.last_message_receiver_state_change_time
            MAX_MESSAGE_RECEIVER_STATE_CHANGE_TIMEOUT_SECS now then .ERROR
        else inst.state
      else if inst.message_receiver_current_state = .ERROR ∨
          inst.message_receiver_current_state = .IDLE then .ERROR
      else inst.state
    else inst.state
  else if inst.state = .STARTING then
    if inst.message_sender_current_state = .OPEN then .STARTED
    else if inst.message_sender_current_state = .OPENING then
      if is_timeout_reached inst.last_message_sender_state_change_time
          MAX_MESSAGE_SENDER_STATE_CHANGE_TIMEOUT_SECS now then .ERROR
      else inst.state
    else if inst.message_sender_current_state = .ERROR ∨
        inst.message_sender_current_state = .CLOSING ∨
        (inst.message_sender_current_state = .IDLE ∧ inst.message_sender_present) then
      .ERROR
    else inst.state
  else inst.state

/-! ## C8: state-changed callback discipline (update_messenger_state,
iothubtransport_amqp_messenger.c lines 369-381, and update_state,
iothubtransport_amqp_twin_messenger.c lines 114-126) -/

/-- update_messenger_state (lines 369-381): installs the new state and fires
the state-changed callback with (previous, new) only when the new state
differs from the current one.  Returns the resulting state and the callback
event, if any. -/
def update_messenger_state (current new_state : AMQP_MESSENGER_STATE) :
    AMQP_MESSENGER_STATE × Option (AMQP_MESSENGER_STATE × AMQP_MESSENGER_STATE) :=
  if new_state ≠ current then (new_state, some (current, new_state))
  else (current, none)

/-- update_state of the twin messenger (lines 114-126): same discipline over
TWIN_MESSENGER_STATE. -/
def update_state (current new_state : TWIN_MESSENGER_STATE) :
    TWIN_MESSENGER_STATE × Option (TWIN_MESSENGER_STATE × TWIN_MESSENGER_STATE) :=
  if new_state ≠ current then (new_state, some (current, new_state))
  else (current, none)

/-- Events emitted by a sequence of update_messenger_state calls starting
from `s0`, in order. -/
def amqp_state_trace (s0 : AMQP_MESSENGER_STATE) :
    List AMQP_MESSENGER_STATE →
    List (AMQP_MESSENGER_STATE × AMQP_MESSENGER_STATE)
  | [] => []
  | n :: rest =>
    match update_messenger_state s0 n with
    | (s1, some ev) => ev :: amqp_state_trace s1 rest
    | (s1, none) => amqp_state_trace s1 rest

/-- Events emitted by a sequence of twin update_state calls starting from
`s0`, in order. -/
def twin_state_trace (s0 : TWIN_MESSENGER_STATE) :
    List TWIN_MESSENGER_STATE →
    List (TWIN_MESSENGER_STATE × TWIN_MESSENGER_STATE)
  | [] => []
  | n :: rest =>
    match update_state s0 n with
    | (s1, some ev) => ev :: twin_state_trace s1 rest
    | (s1, none) => twin_state_trace s1 rest

/-! ## C7: twin request message format
(create_amqp_message_for_twin_operation,
iothubtransport_amqp_twin_messenger.c, lines 688-775) -/

/-- TWIN_RESOURCE_REPORTED (line 42). -/
def TWIN_RESOURCE_REPORTED : String := "/properties/reported"

/-- TWIN_RESOURCE_DESIRED (line 41). -/
def TWIN_RESOURCE_DESIRED : String := "/notifications/twin/properties/desired"

/-- EMPTY_TWIN_BODY_DATA / EMPTY_TWIN_BODY_SIZE (lines 33-34): the one-byte
sentinel body. -/
def EMPTY_TWIN_BODY_DATA : String := " "

/-- get_twin_operation_name (lines 661-686). -/
def get_twin_operation_name : TWIN_OPERATION_TYPE → String
  | .PATCH => "PATCH"
  | .GET => "GET"
  | .PUT => "PUT"
  | .DELETE => "DELETE"

/-- Observable content of an AMQP twin request message: the
message-annotations map (symbol keys to string values, in insertion order),
the properties.correlation-id, and the body data sections (one entry per
message_add_body_amqp_data call). -/
structure TwinAmqpMessage where
  msg_annotations : List (String × String)
  correlation_id : String
  body_sections : List String
  deriving DecidableEq, Repr

/-- First value stored under key `k` in an annotations map. -/
def map_lookup (m : List (String × String)) (k : String) : Option String :=
  (m.find? (fun p => p.1 == k)).map (fun p => p.2)

/-- create_amqp_message_for_twin_operation (lines 688-775): the annotations
map receives the `operation` entry, then `resource` =
TWIN_RESOURCE_REPORTED when the operation is PATCH, then `resource` =
TWIN_RESOURCE_DESIRED when it is PUT or DELETE; the correlation id is set on
the message properties; the body is one AMQP data section holding the
caller-provided buffer when `data` is non-null and the one-byte sentinel
otherwise. -/
def create_amqp_message_for_twin_operation (op_type : TWIN_OPERATION_TYPE)
    (correlation_id : String) (data : Option String) : TwinAmqpMessage :=
  let m0 := [("operation", get_twin_operation_name op_type)]
  let m1 := m0 ++
    (if op_type = .PATCH then [("resource", TWIN_RESOURCE_REPORTED)] else [])
  let m2 := m1 ++
    (if op_type = .PUT ∨ op_type = .DELETE then
      [("resource", TWIN_RESOURCE_DESIRED)] else [])
  let binary_data := match data with
    | some d => d
    | none => EMPTY_TWIN_BODY_DATA
  { msg_annotations := m2
    correlation_id := correlation_id
    body_sections := [binary_data] }

/-! ## C9: option handling (amqp_messenger_set_option,
iothubtransport_amqp_messenger.c, lines 1481-1519) -/

/-- MESSENGER_OPTION_EVENT_SEND_TIMEOUT_SECS
(iothubtransport_amqp_messenger.h, line 19). -/
def MESSENGER_OPTION_EVENT_SEND_TIMEOUT_SECS : String :=
  "amqp_event_send_timeout_secs"

/-- amqp_messenger_set_option (lines 1481-1519) with the return value of
message_queue_set_max_message_enqueued_time_secs passed in as
`mq_setter_result` (the message queue is code of this repository not under
src/).  The null checks on handle and value are modelled by the two Bool
flags.  The source treats a zero setter return as the FAILURE case
(line 1499: `== 0` guards the failure branch). -/
def amqp_messenger_set_option (handle_is_null : Bool) (name : String)
    (value_is_null : Bool) (mq_setter_result : Int) : Int :=
  if handle_is_null ∨ value_is_null then failure_value
  else if name = MESSENGER_OPTION_EVENT_SEND_TIMEOUT_SECS then
    if mq_setter_result = 0 then failure_value
    else 0
  else failure_value

/-! ## C10: send_async failure atomicity (amqp_messenger_send_async,
iothubtransport_amqp_messenger.c, lines 1082-1135) -/

/-- Modelled from the spec: message_queue_add (message_queue is code of this
repository not under src/) places the task in the pending partition on
success (section 4.1.5, "Enqueue places the task in pending") and returns a
non-zero value leaving the queue unchanged on failure.  Queue entries are
message identifiers; `add_fails` injects the failure. -/
def message_queue_add (queue : List Nat) (message : Nat) (add_fails : Bool) :
    Option (List Nat) :=
  if add_fails then none else some (queue ++ [message])

/-- Outcome of one amqp_messenger_send_async call: the returned int, the
resulting send queue, and the user send-completion callback invocations made
during the call itself. -/
structure SendAsyncOutcome where
  result : Int
  queue : List Nat
  callback_invocations : List AmqpSendCompletion
  deriving DecidableEq, Repr

/-- amqp_messenger_send_async (lines 1082-1135): validates the arguments,
clones the message, allocates the send context, and adds the clone to the
send queue.  The failure injection flags model the fallible collaborators
(message_clone, malloc in create_message_send_context, message_queue_add).
The user callback is never invoked inside the call; completions are
delivered later through on_message_processing_completed_callback. -/
def amqp_messenger_send_async (handle_is_null message_is_null callback_is_null : Bool)
    (clone_fails alloc_fails add_fails : Bool)
    (queue : List Nat) (message : Nat) : SendAsyncOutcome :=
  if handle_is_null ∨ message_is_null ∨ callback_is_null then
    ⟨failure_value, queue, []⟩
  else if clone_fails then ⟨failure_value, queue, []⟩
  else if alloc_fails then ⟨failure_value, queue, []⟩
  else
    match message_queue_add queue message add_fails with
    | none => ⟨failure_value, queue, []⟩
    | some queue' => ⟨0, queue', []⟩

/-! ## Helper lemmas -/

/-- The get_send_status loop never terminates on a singleton operations list:
the iterator stays at position 0 for every fuel bound. -/
theorem get_send_status_loop_stuck (ctx : TWIN_OPERATION_CONTEXT) (fuel : Nat) :
    ∀ count, twin_messenger_get_send_status_loop fuel [ctx] 0 count = none := by
  induction fuel with
  | zero => intro count; rfl
  | succ n ih =>
    intro count
    rw [twin_messenger_get_send_status_loop]
    exact ih _

/-- Every event in an AMQP messenger state trace has distinct previous and
new components. -/
theorem amqp_state_trace_events_ne (updates : List AMQP_MESSENGER_STATE) :
    ∀ (s0 p n : AMQP_MESSENGER_STATE),
      (p, n) ∈ amqp_state_trace s0 updates → p ≠ n := by
  induction updates with
  | nil => intro s0 p n h; simp [amqp_state_trace] at h
  | cons u rest ih =>
    intro s0 p n h
    by_cases hu : u = s0
    · rw [amqp_state_trace, update_messenger_state] at h
      simp [hu] at h
      exact ih s0 p n h
    · rw [amqp_state_trace, update_messenger_state] at h
      simp [hu] at h
      rcases h with ⟨hp, hn⟩ | h
      · subst hp; subst hn; exact fun he => hu he.symm
      · exact ih u p n h

/-- Every event in a twin messenger state trace has distinct previous and
new components. -/
theorem twin_state_trace_events_ne (updates : List TWIN_MESSENGER_STATE) :
    ∀ (s0 p n : TWIN_MESSENGER_STATE),
      (p, n) ∈ twin_state_trace s0 updates → p ≠ n := by
  induction updates with
  | nil => intro s0 p n h; simp [twin_state_trace] at h
  | cons u rest ih =>
    intro s0 p n h
    by_cases hu : u = s0
    · rw [twin_state_trace, update_state] at h
      simp [hu] at h
      exact ih s0 p n h
    · rw [twin_state_trace, update_state] at h
      simp [hu] at h
      rcases h with ⟨hp, hn⟩ | h
      · subst hp; subst hn; exact fun he => hu he.symm
      · exact ih u p n h

/-! ## Claim theorems -/

/-- C1: the claim says a response matching the pending PUT while SUBSCRIBING
moves the subscription to SUBSCRIBED (2xx, counter reset) or
SUBSCRIBE_FOR_UPDATES (non-2xx, counter incremented), and a response
matching the pending DELETE while UNSUBSCRIBING to NOT_SUBSCRIBED resp.
UNSUBSCRIBE.  In the source those transitions sit under an outer guard that
requires the state to already be SUBSCRIBED (PUT) resp. NOT_SUBSCRIBED
(DELETE), so while SUBSCRIBING or UNSUBSCRIBING the handler leaves the
subscription state and the error counter completely unchanged, for 2xx and
non-2xx alike. -/
theorem C1_subscribe_response_transitions_unreachable :
    (handle_twin_response .PUT true 204 false "" false ⟨.SUBSCRIBING, 1⟩).1
      = ⟨.SUBSCRIBING, 1⟩
  ∧ (handle_twin_response .PUT true 500 false "" false ⟨.SUBSCRIBING, 1⟩).1
      = ⟨.SUBSCRIBING, 1⟩
  ∧ (handle_twin_response .PUT false 0 false "" false ⟨.SUBSCRIBING, 1⟩).1
      = ⟨.SUBSCRIBING, 1⟩
  ∧ (handle_twin_response .DELETE true 204 false "" false ⟨.UNSUBSCRIBING, 1⟩).1
      = ⟨.UNSUBSCRIBING, 1⟩
  ∧ (handle_twin_response .DELETE true 500 false "" false ⟨.UNSUBSCRIBING, 1⟩).1
      = ⟨.UNSUBSCRIBING, 1⟩ := by decide

/-- C2: the claim says every PATCH operation still in the operations list at
destroy fires its completion callback exactly once with
(CANCELLED, MESSENGER_DESTROYED, 0).  For a PATCH whose AMQP send task is
still held by the send queue, destroying the owned AMQP messenger first
makes the bridge on_amqp_send_complete_callback fire the callback: it fires
exactly once and the context is removed and destroyed exactly once, but the
values passed are the hardcoded (ERROR, NONE, 0) of line 855, not the
computed (CANCELLED, MESSENGER_DESTROYED, 0). -/
theorem C2_destroy_in_flight_patch_callback_values :
    internal_twin_messenger_destroy
      ⟨[⟨.PATCH, "c1", true⟩], .NOT_SUBSCRIBED, 0⟩ [⟨.PATCH, "c1", true⟩]
    = ([⟨"c1", .ERROR, .NONE, 0⟩], ["c1"]) := by decide

/-- C3: the claim says twin_messenger_get_send_status returns 0 and reports
BUSY when the operations list holds a PATCH operation.  The while loop of
the source never advances its iterator, so for any non-empty operations list
the call never returns (no fuel bound suffices); only on the empty list does
it return 0 with IDLE. -/
theorem C3_get_send_status_diverges_on_nonempty_list :
    (∀ fuel, twin_messenger_get_send_status fuel [⟨.PATCH, "c1", true⟩] = none)
  ∧ twin_messenger_get_send_status 1 [] = some (0, .IDLE) := by
  constructor
  · intro fuel
    rw [twin_messenger_get_send_status, get_send_status_loop_stuck]
  · rfl

/-- C4 (amended): when the message queue completes a task with
MESSAGE_QUEUE_TIMEOUT (enqueue age reached the configured send timeout), the
user completion callback is invoked exactly once with result ERROR and
reason TIMEOUT, and the consecutive send-error counter is left unchanged. -/
theorem C4_timeout_completion (messenger_state : AMQP_MESSENGER_STATE)
    (send_error_count : Nat) :
    on_message_processing_completed_callback .TIMEOUT messenger_state
      send_error_count true
    = (send_error_count, [⟨.ERROR, .TIMEOUT⟩]) := by
  cases messenger_state <;>
    simp [on_message_processing_completed_callback]

/-- C4 (counterexample): at a concrete expired task (enqueued at 0, timeout
1 second, current time 2) the queue reports TIMEOUT and the completion
callback runs with (ERROR, TIMEOUT), but the send-error counter stays 0
rather than being incremented as the claim states. -/
theorem C4_timeout_does_not_increment_error_count :
    message_queue_check_timeout 0 2 1 = some .TIMEOUT
  ∧ on_message_processing_completed_callback .TIMEOUT .STARTED 0 true
      = (0, [⟨.ERROR, .TIMEOUT⟩]) := by decide

/-- C5: the claim says receiver links get a maximum link message size of
65536.  create_link sets MESSAGE_SENDER_MAX_LINK_SIZE (the maximum 64-bit
value) for both roles; MESSAGE_RECEIVER_MAX_LINK_SIZE is never applied. -/
theorem C5_receiver_link_gets_sender_max_size :
    (create_link .receiver "h.example" "dev1" "twin/" "u1").max_message_size
      = MESSAGE_SENDER_MAX_LINK_SIZE
  ∧ (create_link .sender "h.example" "dev1" "twin/" "u1").max_message_size
      = MESSAGE_SENDER_MAX_LINK_SIZE
  ∧ MESSAGE_SENDER_MAX_LINK_SIZE ≠ MESSAGE_RECEIVER_MAX_LINK_SIZE := by decide

/-- C6: while the messenger state is STARTING, process_state_changes moves
to STARTED when the sender reports OPEN; to ERROR when the sender reports
OPENING for more than 300 seconds since its last state change; to ERROR when
the sender reports ERROR, CLOSING, or IDLE with a sender object present; and
leaves the state unchanged in every other case (OPENING within the timeout,
or IDLE with no sender object). -/
theorem C6_starting_reconciliation (inst : AmqpReconcileState) (now : Nat)
    (h : inst.state = .STARTING) :
    (inst.message_sender_current_state = .OPEN →
      process_state_changes inst now = .STARTED)
  ∧ (inst.message_sender_current_state = .OPENING →
      (MAX_MESSAGE_SENDER_STATE_CHANGE_TIMEOUT_SECS <
          now - inst.last_message_sender_state_change_time →
        process_state_changes inst now = .ERROR)
      ∧ (¬ MAX_MESSAGE_SENDER_STATE_CHANGE_TIMEOUT_SECS <
          now - inst.last_message_sender_state_change_time →
        process_state_changes inst now = .STARTING))
  ∧ ((inst.message_sender_current_state = .ERROR ∨
      inst.message_sender_current_state = .CLOSING ∨
      (inst.message_sender_current_state = .IDLE ∧
        inst.message_sender_present = true)) →
      process_state_changes inst now = .ERROR)
  ∧ (inst.message_sender_current_state = .IDLE →
      inst.message_sender_present = false →
      process_state_changes inst now = .STARTING) := by
  cases hs : inst.message_sender_current_state <;>
    cases hp : inst.message_sender_present <;>
      simp [process_state_changes, h, hs, hp, is_timeout_reached] <;> omega

/-- C6 witness: a STARTING messenger whose sender reports OPEN transitions
to STARTED. -/
theorem C6_starting_reconciliation_witness :
    (⟨.STARTING, .OPEN, true, 0, .IDLE, false, 0⟩ :
        AmqpReconcileState).message_sender_current_state = .OPEN
  ∧ process_state_changes ⟨.STARTING, .OPEN, true, 0, .IDLE, false, 0⟩ 400
      = .STARTED :=
  ⟨rfl, (C6_starting_reconciliation ⟨.STARTING, .OPEN, true, 0, .IDLE, false, 0⟩
    400 rfl).1 rfl⟩

/-- C7: every twin request message, built the way the twin messenger builds
it (a user JSON buffer for PATCH, no buffer for GET, PUT, DELETE), carries
an `operation` annotation matching the operation type; a `resource`
annotation equal to "/properties/reported" for PATCH and
"/notifications/twin/properties/desired" for PUT and DELETE, and no
`resource` annotation for GET; the correlation id of the operation; and a
single data body section holding the user buffer for PATCH and the one-byte
sentinel " " for the other operation types. -/
theorem C7_twin_request_message_format (op_type : TWIN_OPERATION_TYPE)
    (correlation_id : String) (data : Option String)
    (h_patch : op_type = .PATCH → ∃ d, data = some d)
    (h_other : op_type ≠ .PATCH → data = none) :
    (op_type = .PATCH →
        map_lookup (create_amqp_message_for_twin_operation op_type
            correlation_id data).msg_annotations "operation" = some "PATCH"
      ∧ map_lookup (create_amqp_message_for_twin_operation op_type
            correlation_id data).msg_annotations "resource"
          = some TWIN_RESOURCE_REPORTED)
  ∧ (op_type = .GET →
        map_lookup (create_amqp_message_for_twin_operation op_type
            correlation_id data).msg_annotations "operation" = some "GET"
      ∧ map_lookup (create_amqp_message_for_twin_operation op_type
            correlation_id data).msg_annotations "resource" = none)
  ∧ (op_type = .PUT →
        map_lookup (create_amqp_message_for_twin_operation op_type
            correlation_id data).msg_annotations "operation" = some "PUT"
      ∧ map_lookup (create_amqp_message_for_twin_operation op_type
            correlation_id data).msg_annotations "resource"
          = some TWIN_RESOURCE_DESIRED)
  ∧ (op_type = .DELETE →
        map_lookup (create_amqp_message_for_twin_operation op_type
            correlation_id data).msg_annotations "operation" = some "DELETE"
      ∧ map_lookup (create_amqp_message_for_twin_operation op_type
            correlation_id data).msg_annotations "resource"
          = some TWIN_RESOURCE_DESIRED)
  ∧ (create_amqp_message_for_twin_operation op_type correlation_id
        data).correlation_id = correlation_id
  ∧ (∀ d, data = some d →
      (create_amqp_message_for_twin_operation op_type correlation_id
        data).body_sections = [d])
  ∧ (op_type ≠ .PATCH →
      (create_amqp_message_for_twin_operation op_type correlation_id
        data).body_sections = [EMPTY_TWIN_BODY_DATA]
      ∧ EMPTY_TWIN_BODY_DATA.length = 1) := by
  cases op_type
  case PATCH =>
    obtain ⟨d, hd⟩ := h_patch rfl
    subst hd
    refine ⟨fun _ => ⟨rfl, rfl⟩,
           fun hx => absurd hx (by decide),
           fun hx => absurd hx (by decide),
           fun hx => absurd hx (by decide),
           rfl,
           fun e he => ?_,
           fun hne => absurd rfl hne⟩
    cases he
    rfl
  case GET =>
    have hd := h_other (by decide)
    subst hd
    refine ⟨fun hx => absurd hx (by decide),
            fun _ => ⟨rfl, rfl⟩,
            fun hx => absurd hx (by decide),
            fun hx => absurd hx (by decide),
            rfl, ?_, fun _ => ⟨rfl, rfl⟩⟩
    intro e he
    cases he
  case PUT =>
    have hd := h_other (by decide)
    subst hd
    refine ⟨fun hx => absurd hx (by decide),
            fun hx => absurd hx (by decide),
            fun _ => ⟨rfl, rfl⟩,
            fun hx => absurd hx (by decide),
            rfl, ?_, fun _ => ⟨rfl, rfl⟩⟩
    intro e he
    cases he
  case DELETE =>
    have hd := h_other (by decide)
    subst hd
    refine ⟨fun hx => absurd hx (by decide),
            fun hx => absurd hx (by decide),
            fun hx => absurd hx (by decide),
            fun _ => ⟨rfl, rfl⟩,
            rfl, ?_, fun _ => ⟨rfl, rfl⟩⟩
    intro e he
    cases he

/-- C7 witness: a PATCH request with buffer "jsonpayload" and correlation id
"cid-1" has the claimed annotations, correlation id and body. -/
theorem C7_twin_request_message_format_witness :
    (TWIN_OPERATION_TYPE.PATCH = .PATCH →
        map_lookup (create_amqp_message_for_twin_operation .PATCH "cid-1"
            (some "jsonpayload")).msg_annotations "operation" = some "PATCH"
      ∧ map_lookup (create_amqp_message_for_twin_operation .PATCH "cid-1"
            (some "jsonpayload")).msg_annotations "resource"
          = some TWIN_RESOURCE_REPORTED)
  ∧ (TWIN_OPERATION_TYPE.PATCH = .GET →
        map_lookup (create_amqp_message_for_twin_operation .PATCH "cid-1"
            (some "jsonpayload")).msg_annotations "operation" = some "GET"
      ∧ map_lookup (create_amqp_message_for_twin_operation .PATCH "cid-1"
            (some "jsonpayload")).msg_annotations "resource" = none)
  ∧ (TWIN_OPERATION_TYPE.PATCH = .PUT →
        map_lookup (create_amqp_message_for_twin_operation .PATCH "cid-1"
            (some "jsonpayload")).msg_annotations "operation" = some "PUT"
      ∧ map_lookup (create_amqp_message_for_twin_operation .PATCH "cid-1"
            (some "jsonpayload")).msg_annotations "resource"
          = some TWIN_RESOURCE_DESIRED)
  ∧ (TWIN_OPERATION_TYPE.PATCH = .DELETE →
        map_lookup (create_amqp_message_for_twin_operation .PATCH "cid-1"
            (some "jsonpayload")).msg_annotations "operation" = some "DELETE"
      ∧ map_lookup (create_amqp_message_for_twin_operation .PATCH "cid-1"
            (some "jsonpayload")).msg_annotations "resource"
          = some TWIN_RESOURCE_DESIRED)
  ∧ (create_amqp_message_for_twin_operation .PATCH "cid-1"
        (some "jsonpayload")).correlation_id = "cid-1"
  ∧ (∀ d, (some "jsonpayload" : Option String) = some d →
      (create_amqp_message_for_twin_operation .PATCH "cid-1"
        (some "jsonpayload")).body_sections = [d])
  ∧ (TWIN_OPERATION_TYPE.PATCH ≠ .PATCH →
      (create_amqp_message_for_twin_operation .PATCH "cid-1"
        (some "jsonpayload")).body_sections = [EMPTY_TWIN_BODY_DATA]
      ∧ EMPTY_TWIN_BODY_DATA.length = 1) :=
  C7_twin_request_message_format .PATCH "cid-1" (some "jsonpayload")
    (fun _ => ⟨"jsonpayload", rfl⟩) (fun hc => absurd rfl hc)

/-- C8: for both the AMQP messenger (update_messenger_state) and the twin
messenger (update_state), the state-changed callback fires only when the
requested state differs from the current one, always with the pair
(previous, new) where previous is the prior state, new is the installed
state, and previous differs from new; and in any sequence of state updates
every emitted event has distinct components. -/
theorem C8_state_changed_callback_discipline :
    (∀ (current new_state : AMQP_MESSENGER_STATE)
        (ev : AMQP_MESSENGER_STATE × AMQP_MESSENGER_STATE),
        (update_messenger_state current new_state).2 = some ev →
        ev.1 = current ∧ ev.2 = new_state ∧ ev.1 ≠ ev.2)
  ∧ (∀ (current new_state : AMQP_MESSENGER_STATE), new_state = current →
        (update_messenger_state current new_state).2 = none)
  ∧ (∀ (current new_state : TWIN_MESSENGER_STATE)
        (ev : TWIN_MESSENGER_STATE × TWIN_MESSENGER_STATE),
        (update_state current new_state).2 = some ev →
        ev.1 = current ∧ ev.2 = new_state ∧ ev.1 ≠ ev.2)
  ∧ (∀ (current new_state : TWIN_MESSENGER_STATE), new_state = current →
        (update_state current new_state).2 = none)
  ∧ (∀ (s0 : AMQP_MESSENGER_STATE) (updates : List AMQP_MESSENGER_STATE)
        (p n : AMQP_MESSENGER_STATE),
        (p, n) ∈ amqp_state_trace s0 updates → p ≠ n)
  ∧ (∀ (s0 : TWIN_MESSENGER_STATE) (updates : List TWIN_MESSENGER_STATE)
        (p n : TWIN_MESSENGER_STATE),
        (p, n) ∈ twin_state_trace s0 updates → p ≠ n) := by
  refine ⟨by decide, by decide, by decide, by decide, ?_, ?_⟩
  · intro s0 updates p n hmem
    exact amqp_state_trace_events_ne updates s0 p n hmem
  · intro s0 updates p n hmem
    exact twin_state_trace_events_ne updates s0 p n hmem

/-- C8 witness: updating a STOPPED AMQP messenger to STARTING emits the
event (STOPPED, STARTING), whose components differ. -/
theorem C8_state_changed_callback_discipline_witness :
    (AMQP_MESSENGER_STATE.STOPPED, AMQP_MESSENGER_STATE.STARTING).1
        = AMQP_MESSENGER_STATE.STOPPED
  ∧ (AMQP_MESSENGER_STATE.STOPPED, AMQP_MESSENGER_STATE.STARTING).2
        = AMQP_MESSENGER_STATE.STARTING
  ∧ (AMQP_MESSENGER_STATE.STOPPED, AMQP_MESSENGER_STATE.STARTING).1
        ≠ (AMQP_MESSENGER_STATE.STOPPED, AMQP_MESSENGER_STATE.STARTING).2 :=
  C8_state_changed_callback_discipline.1 .STOPPED .STARTING
    (.STOPPED, .STARTING) (by decide)

/-- C9: the claim (and the spec) say amqp_messenger_set_option on
"amqp_event_send_timeout_secs" succeeds exactly when the queue setter
returns zero.  The source uses `== 0` as its failure test, so it returns
failure when the setter returns 0 and success when the setter returns a
nonzero value: the success condition is inverted. -/
theorem C9_set_option_success_test_inverted :
    amqp_messenger_set_option false MESSENGER_OPTION_EVENT_SEND_TIMEOUT_SECS
        false 0 ≠ 0
  ∧ amqp_messenger_set_option false MESSENGER_OPTION_EVENT_SEND_TIMEOUT_SECS
        false 1 = 0 := by decide

/-- C10: whenever amqp_messenger_send_async returns a nonzero (failure)
value - null argument, clone failure, context-allocation failure, or
queue-add failure - the send queue is unchanged and the user completion
callback is not invoked during the call. -/
theorem C10_send_async_failure_atomicity
    (handle_is_null message_is_null callback_is_null
      clone_fails alloc_fails add_fails : Bool)
    (queue : List Nat) (message : Nat)
    (h : (amqp_messenger_send_async handle_is_null message_is_null
        callback_is_null clone_fails alloc_fails add_fails queue
        message).result ≠ 0) :
    (amqp_messenger_send_async handle_is_null message_is_null callback_is_null
        clone_fails alloc_fails add_fails queue message).queue = queue
  ∧ (amqp_messenger_send_async handle_is_null message_is_null callback_is_null
        clone_fails alloc_fails add_fails queue
        message).callback_invocations = [] := by
  cases handle_is_null <;> cases message_is_null <;> cases callback_is_null <;>
    cases clone_fails <;> cases alloc_fails <;> cases add_fails <;>
      simp_all [amqp_messenger_send_async, message_queue_add, failure_value]

/-- C10 witness: a send_async call with a null handle fails, leaves the
queue unchanged and makes no callback invocation. -/
theorem C10_send_async_failure_atomicity_witness :
    ((amqp_messenger_send_async true false false false false false [7]
        9).result ≠ 0)
  ∧ ((amqp_messenger_send_async true false false false false false [7]
        9).queue = [7]
     ∧ (amqp_messenger_send_async true false false false false false [7]
        9).callback_invocations = []) :=
  ⟨by decide,
   C10_send_async_failure_atomicity true false false false false false [7] 9
     (by decide)⟩
